import Mathlib

/-!
Verification of the analysis core of `app/utils/analysis/analysis_service.py`.

The Python source operates on floating-point numbers and pandas DataFrames.
We shallowly embed it over `ℚ` (exact rational arithmetic) and plain lists:

* a DataFrame becomes a `Frame`: a list of dates (days, as `ℤ`), a parallel
  list of closing prices, and the remaining named columns;
* Python's `round` (banker's rounding, round-half-to-even) becomes `pyRound`;
* the numeric kernels that are irreducibly transcendental over ℚ
  (`np.log`, `sklearn` least-squares fits, `std`, fractional powers,
  `sqrt`) are passed in as explicit function parameters, so every theorem
  quantifies over them; the control flow, record construction, mutation,
  fallback and scoring arithmetic are translated line by line from the
  source;
* Python exceptions become `Option`/`Except` values: a kernel returning
  `none` models the corresponding `try:` block raising, and each `except`
  handler's substitute value is translated from the source.
-/

namespace AnalysisService

/-- Python's built-in `round` on a rational: round half to even
(banker's rounding), as used at source lines 323 and 398. -/
def pyRound (q : ℚ) : ℤ :=
  if q - ⌊q⌋ < 1/2 then ⌊q⌋
  else if (1:ℚ)/2 < q - ⌊q⌋ then ⌊q⌋ + 1
  else if ⌊q⌋ % 2 = 0 then ⌊q⌋ else ⌊q⌋ + 1

/-- Python's `round(x, 2)` (source line 398). -/
def pyRound2 (q : ℚ) : ℚ := (pyRound (q * 100) : ℚ) / 100

/-! ## CrossoverDetector (source lines 26-52, `find_crossover_points`)

The Python loop walks `diff = s1 - s2` from index 1, carrying the four
result lists in lockstep.  `goCross` is that loop: `p1, p2` are
`s1[i-1], s2[i-1]`, and the four remaining lists hold `s1[i:], s2[i:],
dates[i:], prices[i:]`. -/

/-- The scan loop of `find_crossover_points` (source lines 38-50). -/
def goCross (p1 p2 : ℚ) :
    List ℚ → List ℚ → List ℤ → List ℚ → List ℤ × List ℚ × List String × List ℚ
  | a :: s1, b :: s2, dt :: ds, pr :: ps =>
    let rest := goCross a b s1 s2 ds ps
    if p1 - p2 ≤ 0 ∧ a - b > 0 then
      (dt :: rest.1, (p1 + p2) / 2 :: rest.2.1, "down" :: rest.2.2.1, pr :: rest.2.2.2)
    else if p1 - p2 ≥ 0 ∧ a - b < 0 then
      (dt :: rest.1, (p1 + p2) / 2 :: rest.2.1, "up" :: rest.2.2.1, pr :: rest.2.2.2)
    else rest
  | _, _, _, _ => ([], [], [], [])

/-- Source lines 26-52: returns the four parallel event lists
(dates, values, directions, prices).  The loop starts at index 1, so the
heads of `dates` and `prices` are never emitted. -/
def find_crossover_points (dates : List ℤ) (series1 series2 prices : List ℚ) :
    List ℤ × List ℚ × List String × List ℚ :=
  match series1, series2, dates, prices with
  | a :: s1, b :: s2, _ :: ds, _ :: ps => goCross a b s1 s2 ds ps
  | _, _, _, _ => ([], [], [], [])

/-- One crossover event, as described by the spec: the date and price at
index `i`, the midpoint of the two series at `i-1`, and a direction label. -/
structure CrossEvent where
  date : ℤ
  value : ℚ
  direction : String
  price : ℚ
deriving DecidableEq

/-- Spec-side description of the detector, following the claim's words:
scan `diff = s1 - s2` once from index 1; for each `i >= 1`, inspect
`(s1[i-1], s2[i-1])`, `(s1[i], s2[i])`, `dates[i]` and `prices[i]`
(expressed here as a zip of each list with its own tail); a transition
from `diff[i-1] <= 0` to `diff[i] > 0` emits a "down" event and a
transition from `diff[i-1] >= 0` to `diff[i] < 0` an "up" event, each
carrying the midpoint `(s1[i-1]+s2[i-1])/2` and the price at `i`. -/
def crossEventsSpec (dates : List ℤ) (s1 s2 prices : List ℚ) : List CrossEvent :=
  ((s1.zip s2).zip ((s1.tail.zip s2.tail).zip (dates.tail.zip prices.tail))).filterMap
    fun q =>
      let prev1 := q.1.1
      let prev2 := q.1.2
      let cur1 := q.2.1.1
      let cur2 := q.2.1.2
      let dt := q.2.2.1
      let pr := q.2.2.2
      if prev1 - prev2 ≤ 0 ∧ cur1 - cur2 > 0 then
        some ⟨dt, (prev1 + prev2) / 2, "down", pr⟩
      else if prev1 - prev2 ≥ 0 ∧ cur1 - cur2 < 0 then
        some ⟨dt, (prev1 + prev2) / 2, "up", pr⟩
      else none

/-- Project an event list to the four parallel lists the source returns. -/
def projectEvents (es : List CrossEvent) : List ℤ × List ℚ × List String × List ℚ :=
  (es.map CrossEvent.date, es.map CrossEvent.value,
   es.map CrossEvent.direction, es.map CrossEvent.price)

/-! ## Price appreciation (source lines 17-24) -/

/-- Source lines 18-24: price position within the `[lowest, highest]` range. -/
def calculate_price_appreciation_pct (current_price highest_price lowest_price : ℚ) : ℚ :=
  let total_range := highest_price - lowest_price
  if total_range > 0 then (current_price - lowest_price) / total_range * 100
  else 0

/-! ## MetricScorer (source lines 292-344, `score_metric`) -/

/-- Source lines 292-344.  The `metric_type` string dispatch is kept as in
the source; `"return"` uses percentage-point differences, anything else the
volatility ratio ladder.  Return type is `ℚ` because the caller mixes the
result into rational arithmetic; all produced values are integers. -/
def score_metric (value benchmark : ℚ) (metric_type : String) : ℚ :=
  if metric_type = "return" then
    let base_score : ℚ := 60
    let diff := (value - benchmark) * 100
    let points_change := if diff ≥ 0 then diff / 2 else diff * 2
    let final_score := base_score + points_change
    if final_score > 100 then 100
    else if final_score < 25 then 25
    else (pyRound final_score : ℚ)
  else
    let ratio := value / benchmark
    if ratio ≤ 0.6 then 100
    else if ratio ≤ 0.7 then 90
    else if ratio ≤ 0.8 then 85
    else if ratio ≤ 0.9 then 80
    else if ratio ≤ 1.0 then 75
    else if ratio ≤ 1.2 then 70
    else if ratio ≤ 1.4 then 65
    else if ratio ≤ 1.6 then 60
    else if ratio ≤ 1.8 then 55
    else if ratio ≤ 2.0 then 50
    else 40

/-- Spec-side reading of the return score (claim C6): base 60, plus
`diff/2` for non-negative `diff_pct_points`, minus `2·|diff|` for negative
`diff`, clamped to `[25,100]` and rounded to the nearest integer. -/
def returnScoreSpec (value benchmark : ℚ) : ℚ :=
  let diff_pct_points := (value - benchmark) * 100
  let adjusted := 60 +
    (if diff_pct_points ≥ 0 then diff_pct_points / 2 else -(2 * |diff_pct_points|))
  min 100 (max 25 (pyRound adjusted : ℚ))

/-- Spec-side reading of the volatility score (claim C7): a stepped lookup
on the ratio, with inclusive upper bounds. -/
def volRatioLookup (ratio : ℚ) : ℚ :=
  if ratio ≤ 0.6 then 100
  else if ratio ≤ 0.7 then 90
  else if ratio ≤ 0.8 then 85
  else if ratio ≤ 0.9 then 80
  else if ratio ≤ 1.0 then 75
  else if ratio ≤ 1.2 then 70
  else if ratio ≤ 1.4 then 65
  else if ratio ≤ 1.6 then 60
  else if ratio ≤ 1.8 then 55
  else if ratio ≤ 2.0 then 50
  else 40

/-! ## TrendScorer (source lines 212-289, `evaluate_trend_score`)

The source computes `vol_linear = annual_vol·sqrt(period_years)` and
`vol_quad = annual_vol/sqrt(period_days)` from the asset's own data
(lines 219-226); these are square roots of data statistics, so the
embedding takes them as explicit parameters. -/

/-- The `trend_type` dict of source lines 236-241: four sign tests. -/
structure TrendTypes where
  accelerating_up : Bool
  accelerating_down : Bool
  reversal_up : Bool
  reversal_down : Bool
deriving DecidableEq

/-- Source lines 236-241. -/
def trend_type (quad_coef linear_coef : ℚ) : TrendTypes :=
  { accelerating_up := decide (quad_coef > 0 ∧ linear_coef > 0)
    accelerating_down := decide (quad_coef < 0 ∧ linear_coef < 0)
    reversal_up := decide (quad_coef > 0 ∧ linear_coef < 0)
    reversal_down := decide (quad_coef < 0 ∧ linear_coef > 0) }

/-- Number of trend types that apply. -/
def countTrue (t : TrendTypes) : ℕ :=
  t.accelerating_up.toNat + t.accelerating_down.toNat
    + t.reversal_up.toNat + t.reversal_down.toNat

/-- Source lines 212-289: trend score, diagnostic ratio and credibility
level.  `float('inf')` (line 271) is modelled as `none`. -/
def evaluate_trend_score (quad_coef linear_coef r_squared vol_linear vol_quad : ℚ) :
    ℚ × Option ℚ × ℤ :=
  let linear_impact := linear_coef / vol_linear
  let quad_impact := quad_coef / vol_quad
  let tt := trend_type quad_coef linear_coef
  let future_strength := min 1 (|quad_impact| / 30)
  let historic_strength := min 1 |linear_impact|
  let trend_score : ℚ :=
    if tt.accelerating_up then 50 + (future_strength * 35 + historic_strength * 25)
    else if tt.accelerating_down then 50 - (future_strength * 35 + historic_strength * 25)
    else if tt.reversal_up then 50 + (future_strength * 35 - historic_strength * 15)
    else if tt.reversal_down then
      if historic_strength > 0.7 then 50 + historic_strength * 35
      else if future_strength > historic_strength then 50 - future_strength * 25
      else 50 + historic_strength * 20
    else 50
  let r_squared_multiplier := 0.6 + 0.4 * r_squared ^ 2
  let final_score := trend_score * r_squared_multiplier
  let clamped := min 100 (max 0 final_score)
  let ratio : Option ℚ := if linear_coef ≠ 0 then some |quad_coef / linear_coef| else none
  let credibility_level : ℤ :=
    if r_squared ≥ 0.90 then 5
    else if r_squared ≥ 0.80 then 4
    else if r_squared ≥ 0.70 then 3
    else if r_squared ≥ 0.60 then 2
    else 1
  (clamped, ratio, credibility_level)

/-- The four mutually exclusive trend classes of the spec (claim C9). -/
inductive TrendClass where
  | accelUp
  | accelDown
  | revUp
  | revDown
deriving DecidableEq

/-- Spec-side classification by coefficient signs (claim C9). -/
def classifyTrend (q l : ℚ) : Option TrendClass :=
  if q > 0 ∧ l > 0 then some .accelUp
  else if q < 0 ∧ l < 0 then some .accelDown
  else if q > 0 ∧ l < 0 then some .revUp
  else if q < 0 ∧ l > 0 then some .revDown
  else none

/-- Spec-side score adjustment applied to the neutral base 50, per trend
class, in terms of the strengths `fs` (future) and `hs` (historic). -/
def trendAdjustmentSpec (c : Option TrendClass) (fs hs : ℚ) : ℚ :=
  match c with
  | some .accelUp => fs * 35 + hs * 25
  | some .accelDown => -(fs * 35 + hs * 25)
  | some .revUp => fs * 35 - hs * 15
  | some .revDown =>
    if hs > 0.7 then hs * 35 else if fs > hs then -(fs * 25) else hs * 20
  | none => 0

/-! ## Data model -/

/-- A pandas DataFrame of the shape this core consumes: a date index
(days, as `ℤ`), the `Close` column, and any further named columns. -/
structure Frame where
  dates : List ℤ
  close : List ℚ
  cols : List (String × List ℚ)
deriving DecidableEq

/-- Pandas column assignment `df[nm] = v`: overwrite in place if the
column exists, otherwise append it. -/
def setCol (cols : List (String × List ℚ)) (nm : String) (v : List ℚ) :
    List (String × List ℚ) :=
  if cols.any (fun c => c.1 = nm) then
    cols.map (fun c => if c.1 = nm then (nm, v) else c)
  else cols ++ [(nm, v)]

/-- Source line 152: `data['Log_Close'] = np.log(data['Close'])` — an
in-place mutation of the caller's frame. -/
def Frame.setLogClose (f : Frame) (ln : ℚ → ℚ) : Frame :=
  { f with cols := setCol f.cols "Log_Close" (f.close.map ln) }

/-- Column lookup by name. -/
def lookupCol (cols : List (String × List ℚ)) (nm : String) : Option (List ℚ) :=
  (cols.find? (fun c => c.1 = nm)).map Prod.snd

/-! ## BenchmarkProvider (source lines 97-148) -/

/-- The benchmark parameter record of source lines 124-148. -/
structure SP500Params where
  quad_coef : ℚ
  linear_coef : ℚ
  r_squared : ℚ
  annual_return : ℚ
  annual_volatility : ℚ
deriving DecidableEq

/-- The fixed fallback constants of source lines 132-138 and 142-148. -/
def fallback_sp500_params : SP500Params :=
  { quad_coef := -0.1134, linear_coef := 0.4700, r_squared := 0.9505,
    annual_return := 0.2384, annual_volatility := 0.125 }

/-- Source lines 97-148: if the fetched benchmark series is absent or
empty, or its numeric processing raises (`spKernel` returns `none`,
caught at line 140), the fallback constants are used. -/
def benchmarkParams (spFetch : Option Frame) (spKernel : Frame → Option SP500Params) :
    SP500Params :=
  match spFetch with
  | some spd =>
    if spd.dates.isEmpty then fallback_sp500_params
    else (spKernel spd).getD fallback_sp500_params
  | none => fallback_sp500_params

/-! ## CurveFitter results and the composite result record -/

/-- Output of the numeric regression kernel (source lines 153-180):
`model.coef_`, `intercept_`, `max_x`, forecast and bands, residual std
and R².  Produced by `sklearn` in the source, so passed in abstractly. -/
structure RegOut where
  coef0 : ℚ
  coef1 : ℚ
  coef2 : ℚ
  intercept : ℚ
  r2 : ℚ
  std_dev : ℚ
  max_x : ℤ
  y_pred : List ℚ
  y_pred_upper : List ℚ
  y_pred_lower : List ℚ
deriving DecidableEq

/-- The `total_score` sub-dict of the result (source lines 424-452).
The error-path dicts (lines 86-94, 197-205) carry fewer keys (for
example a `type: 'Unknown'` marker and no `scaling`); the embedding uses
one record shape and zero-fills fields an error path does not set. -/
structure TotalScore where
  score : ℚ
  raw_score : ℚ
  rating : String
  trend_score : ℚ
  trend_ratio : Option ℚ
  credibility_level : ℤ
  trend_quad : ℚ
  trend_linear : ℚ
  return_score : ℚ
  return_value : ℚ
  vol_score : ℚ
  vol_value : ℚ
  scaling_factor : ℚ
  sp500_base : ℚ
deriving DecidableEq

/-- The result record of `perform_polynomial_regression`
(source lines 414-453). -/
structure RegressionResult where
  predictions : List ℚ
  upper_band : List ℚ
  lower_band : List ℚ
  r2 : ℚ
  coefficients : List ℚ
  intercept : ℚ
  std_dev : ℚ
  equation : String
  max_x : ℤ
  total_score : TotalScore
deriving DecidableEq

/-- All-zero `total_score` used by the three error paths. -/
def zeroTotalScore : TotalScore :=
  { score := 0, raw_score := 0, rating := "Error", trend_score := 0,
    trend_ratio := none, credibility_level := 0, trend_quad := 0,
    trend_linear := 0, return_score := 0, return_value := 0, vol_score := 0,
    vol_value := 0, scaling_factor := 0, sp500_base := 0 }

/-- The empty-input record of source lines 76-95. -/
def emptyResult : RegressionResult :=
  { predictions := [], upper_band := [], lower_band := [], r2 := 0,
    coefficients := [0, 0, 0], intercept := 0, std_dev := 0,
    equation := "No data available", max_x := 0, total_score := zeroTotalScore }

/-- The regression-failure record of source lines 187-206: the raw close
prices stand in for predictions and bands, `max_x = len(data)`. -/
def regressionFailedResult (d : Frame) : RegressionResult :=
  { predictions := d.close, upper_band := d.close, lower_band := d.close,
    r2 := 0, coefficients := [0, 0, 0], intercept := 0, std_dev := 0,
    equation := "Regression failed", max_x := (d.dates.length : ℤ),
    total_score := zeroTotalScore }

/-- Decimal rendering of a rational with 4 places, modelling Python's
`f"{x:.4f}"` (rounding half to even; the sign of a negative value that
rounds to zero is dropped, which no claim depends on). -/
def toFixed4 (q : ℚ) : String :=
  let n := pyRound (q * 10000)
  let sign := if n < 0 then "-" else ""
  let a := n.natAbs
  let fpStr := toString (a % 10000)
  let pad := String.mk (List.replicate (4 - fpStr.length) '0')
  sign ++ toString (a / 10000) ++ "." ++ pad ++ fpStr

/-- Source lines 54-67: equation string from the nonzero terms. -/
def format_regression_equation (coefficients : List ℚ) (intercept : ℚ) (max_x : ℤ) :
    String :=
  let c2 := coefficients.getD 2 0
  let c1 := coefficients.getD 1 0
  let terms : List String :=
    (if c2 ≠ 0 then [toFixed4 c2 ++ "(x/" ++ toString max_x ++ ")²"] else [])
    ++ (if c1 ≠ 0 then
          [(if c1 > 0 then "+" else "") ++ toFixed4 c1 ++ "(x/" ++ toString max_x ++ ")"]
        else [])
    ++ (if intercept ≠ 0 then [(if intercept > 0 then "+" else "") ++ toFixed4 intercept]
        else [])
  "Ln(y) = " ++ String.intercalate " " terms

/-! ## `perform_polynomial_regression` (source lines 69-477)

Numeric kernels passed as parameters:
* `spKernel` — lines 108-130: benchmark regression/return/volatility;
  `none` models the `except` at line 140 (fallback constants).
* `regKernel` — lines 153-180: the asset regression on the mutated frame;
  `none` models the `except` at line 185 (regression-failure record).
* `ln` — `np.log`, used for the in-place `Log_Close` mutation at line 152.
* `assetStats` — lines 348-350: `(annual_return, annual_volatility)`.
* `volKernel` — lines 219-226: `(vol_linear, vol_quad)`.
* `u` — the random perturbation: line 398 replaces the scaled score `f`
  by `round(uniform(f-2, f+2), 2) = round(f + u, 2)` with `u ∈ [-2, 2]`.

The scoring arithmetic of lines 346-404 is over plain rationals here and
cannot raise, so the `except` at lines 406-411 has no counterpart; the
outer guard at line 455 likewise never fires — the embedded function is
total, returning the result record and the caller's (possibly mutated)
frame. -/
def perform_polynomial_regression (data : Option Frame) (spFetch : Option Frame)
    (spKernel : Frame → Option SP500Params) (regKernel : Frame → Option RegOut)
    (ln : ℚ → ℚ) (assetStats : Frame → ℚ × ℚ) (volKernel : Frame → ℚ × ℚ)
    (u : ℚ) : RegressionResult × Option Frame :=
  match data with
  | none => (emptyResult, none)
  | some d =>
    if d.dates.isEmpty then (emptyResult, some d)
    else
      let sp := benchmarkParams spFetch spKernel
      let d' := d.setLogClose ln
      match regKernel d' with
      | none => (regressionFailedResult d, some d')
      | some rk =>
        let annual_return := (assetStats d').1
        let annual_volatility := (assetStats d').2
        let vol_linear := (volKernel d').1
        let vol_quad := (volKernel d').2
        let ts := evaluate_trend_score rk.coef2 rk.coef1 rk.r2 vol_linear vol_quad
        let trend_score := ts.1
        let return_score := score_metric annual_return sp.annual_return "return"
        let vol_score := score_metric annual_volatility sp.annual_volatility "volatility"
        let raw_score := trend_score * 0.3 + return_score * 0.6 + vol_score * 0.10
        let sp500_trend_score :=
          (evaluate_trend_score sp.quad_coef sp.linear_coef sp.r_squared
            vol_linear vol_quad).1
        let sp500_return_score := score_metric sp.annual_return sp.annual_return "return"
        let sp500_vol_score :=
          score_metric sp.annual_volatility sp.annual_volatility "volatility"
        let sp500_raw_score := sp500_trend_score * 0.3 + sp500_return_score * 0.6
          + sp500_vol_score * 0.10
        let scaling_factor := 75 / sp500_raw_score
        let pre_final := min 95 (raw_score * scaling_factor)
        let final_score := pyRound2 (pre_final + u)
        let rating :=
          if final_score ≥ 90 then "Excellent"
          else if final_score ≥ 75 then "Very Good"
          else if final_score ≥ 65 then "Good"
          else if final_score ≥ 40 then "Fair"
          else "Poor"
        ({ predictions := rk.y_pred, upper_band := rk.y_pred_upper,
           lower_band := rk.y_pred_lower, r2 := rk.r2,
           coefficients := [rk.coef0, rk.coef1, rk.coef2],
           intercept := rk.intercept, std_dev := rk.std_dev,
           equation := format_regression_equation [rk.coef0, rk.coef1, rk.coef2]
             rk.intercept rk.max_x,
           max_x := rk.max_x,
           total_score :=
             { score := final_score, raw_score := raw_score, rating := rating,
               trend_score := trend_score, trend_ratio := ts.2.1,
               credibility_level := ts.2.2,
               trend_quad := rk.coef2, trend_linear := rk.coef1,
               return_score := return_score, return_value := annual_return,
               vol_score := vol_score, vol_value := annual_volatility,
               scaling_factor := scaling_factor, sp500_base := sp500_raw_score } },
         some d')

/-- Everything in a result except the randomly perturbed
`total_score.score` and the rating derived from it. -/
def resultSansRandom (r : RegressionResult) :=
  (r.predictions, r.upper_band, r.lower_band, r.r2, r.coefficients, r.intercept,
   r.std_dev, r.equation, r.max_x, r.total_score.raw_score,
   r.total_score.trend_score, r.total_score.trend_ratio,
   r.total_score.credibility_level, r.total_score.trend_quad,
   r.total_score.trend_linear, r.total_score.return_score,
   r.total_score.return_value, r.total_score.vol_score,
   r.total_score.vol_value, r.total_score.scaling_factor,
   r.total_score.sp500_base)

/-! ## RollingWindowAnalyzer (source lines 544-641, `analyze_stock_data`) -/

/-- `data.loc[data.index <= current_date]`: all rows up to `t`. -/
def upTo (f : Frame) (t : ℤ) : List (ℤ × ℚ) :=
  (f.dates.zip f.close).filter (fun p => p.1 ≤ t)

/-- Source lines 555-558 and 561-564: the trailing window ending at `t`,
trimmed to `bound` days only once `(t - first_date) > bound`. -/
def trimWindow (f : Frame) (t : ℤ) (bound : ℤ) : List (ℤ × ℚ) :=
  if t - ((upTo f t).headD (0, 0)).1 > bound then
    (upTo f t).filter (fun p => p.1 > t - bound)
  else upTo f t

/-- One row of the rolling analysis table (source lines 612-620). -/
structure WRow where
  date : ℤ
  close : ℚ
  high : ℚ
  low : ℚ
  retracement_ratio_pct : ℚ
  price_position_pct : ℚ
  r2_pct : Option ℚ
deriving DecidableEq

/-- The body of the per-date loop (source lines 553-620).  `r2Kernel`
models the rolling regression R² of lines 589-600; it returns `none` when
that computation raises (caught at lines 607-609, leaving `None`). -/
def rowFor (f : Frame) (crossover_days lookback_days : ℤ)
    (r2Kernel : List (ℤ × ℚ) → Option ℚ) (t : ℤ) : Option WRow :=
  let r2_data := trimWindow f t lookback_days
  let period_data := trimWindow f t crossover_days
  if period_data.length < 20 then none
  else
    let closes := period_data.map Prod.snd
    let current_price := closes.getLastD 0
    let highest_price := closes.max?.getD 0
    let lowest_price := closes.min?.getD 0
    let total_move := highest_price - lowest_price
    let ratio :=
      if total_move > 0 then (highest_price - current_price) / total_move * 100 else 0
    let appreciation_pct :=
      calculate_price_appreciation_pct current_price highest_price lowest_price
    let r2_pct := if 20 ≤ r2_data.length then r2Kernel r2_data else none
    some { date := t, close := current_price, high := highest_price,
           low := lowest_price, retracement_ratio_pct := ratio,
           price_position_pct := appreciation_pct, r2_pct := r2_pct }

/-- The `result_data` list accumulated by the loop (source lines 551-620). -/
def rowsOf (f : Frame) (crossover_days lookback_days : ℤ)
    (r2Kernel : List (ℤ × ℚ) → Option ℚ) : List WRow :=
  f.dates.filterMap (rowFor f crossover_days lookback_days r2Kernel)

/-- Source lines 627-629: copy an original column, aligned by the row
dates (pandas index alignment). -/
def colAtDates (f : Frame) (nm : String) (rowDates : List ℤ) :
    Option (String × List ℚ) :=
  match lookupCol f.cols nm with
  | none => none
  | some v => some (nm, rowDates.map (fun t => v.getD (f.dates.indexOf t) 0))

/-- Source lines 544-641.  When no date qualifies, `result_data` is empty
and `pd.DataFrame([]).set_index('Date')` raises `KeyError`; the handler at
lines 639-641 logs and RE-RAISES, so the caller sees the exception —
modelled as `Except.error`. -/
def analyze_stock_data (f : Frame) (crossover_days lookback_days : ℤ)
    (r2Kernel : List (ℤ × ℚ) → Option ℚ) :
    Except String (List WRow × List (String × List ℚ)) :=
  let rows := rowsOf f crossover_days lookback_days r2Kernel
  if rows.isEmpty then Except.error "KeyError: Date"
  else
    let rowDates := rows.map WRow.date
    Except.ok (rows,
      ["Open", "Volume", "Dividends", "Stock Splits"].filterMap
        (fun nm => colAtDates f nm rowDates))

/-! ## Concrete sample inputs used by counterexamples and witnesses -/

/-- A two-row frame with constant close 1. -/
def sampleFrame : Frame := { dates := [0, 1], close := [1, 1], cols := [] }

/-- A frame with no rows (`data.empty` in pandas). -/
def emptyFrame : Frame := { dates := [], close := [], cols := [] }

/-- A 25-row daily frame with constant close 1. -/
def manyFrame : Frame :=
  { dates := (List.range 25).map (fun n => (n : ℤ)),
    close := List.replicate 25 1, cols := [] }

/-- A concrete regression-kernel output: a flat fit with perfect R². -/
def sampleRegOut : RegOut :=
  { coef0 := 0, coef1 := 0, coef2 := 0, intercept := 0, r2 := 1, std_dev := 0,
    max_x := 1, y_pred := [], y_pred_upper := [], y_pred_lower := [] }

/-- A regression kernel that always succeeds with `sampleRegOut`. -/
def sampleRegKernel : Frame → Option RegOut := fun _ => some sampleRegOut

/-- Concrete benchmark parameters with `quad_coef = 0` (neutral trend)
and the same return/volatility shape as the asset sample. -/
def sampleParams : SP500Params :=
  { quad_coef := 0, linear_coef := 1, r_squared := 1,
    annual_return := 0, annual_volatility := 1 }

/-- A benchmark kernel that always succeeds with `sampleParams`. -/
def sampleSpKernel : Frame → Option SP500Params := fun _ => some sampleParams

/-- Concrete `(annual_return, annual_volatility)`. -/
def sampleStats : Frame → ℚ × ℚ := fun _ => (0, 1)

/-- Concrete `(vol_linear, vol_quad)`. -/
def sampleVols : Frame → ℚ × ℚ := fun _ => (1, 1)

/-! ## Theorems -/

theorem floor_le_pyRound (q : ℚ) : ⌊q⌋ ≤ pyRound q := by
  unfold pyRound; split_ifs <;> omega

theorem pyRound_le_floor_add_one (q : ℚ) : pyRound q ≤ ⌊q⌋ + 1 := by
  unfold pyRound; split_ifs <;> omega

theorem pyRound_sub_abs (q : ℚ) : |(pyRound q : ℚ) - q| ≤ 1/2 := by
  have h1 := Int.floor_le q
  have h2 := Int.lt_floor_add_one q
  unfold pyRound
  split_ifs with h h' h'' <;> rw [abs_le] <;> constructor <;> push_cast <;> linarith

theorem pyRound_mono {x y : ℚ} (h : x ≤ y) : pyRound x ≤ pyRound y := by
  rcases lt_or_le ⌊x⌋ ⌊y⌋ with hf | hf
  · calc pyRound x ≤ ⌊x⌋ + 1 := pyRound_le_floor_add_one x
      _ ≤ ⌊y⌋ := by omega
      _ ≤ pyRound y := floor_le_pyRound y
  · have hfe : ⌊x⌋ = ⌊y⌋ := le_antisymm (Int.floor_le_floor h) hf
    unfold pyRound
    rw [hfe] at *
    split_ifs with h1 h2 h3 h4 h5 h6 h7 h8 <;> try omega
    all_goals (exfalso; rw [hfe] at h1)
    all_goals linarith

theorem pyRound_intCast (n : ℤ) : pyRound (n : ℚ) = n := by
  unfold pyRound
  rw [Int.floor_intCast]
  simp

theorem pyRound2_sub_abs (q : ℚ) : |pyRound2 q - q| ≤ 1/200 := by
  have h := pyRound_sub_abs (q * 100)
  unfold pyRound2
  rw [show (pyRound (q * 100) : ℚ) / 100 - q = ((pyRound (q * 100) : ℚ) - q * 100) / 100 by ring,
    abs_div]
  rw [show |(100:ℚ)| = 100 by norm_num]
  linarith

theorem pyRound2_diff_abs (x y : ℚ) : |pyRound2 x - pyRound2 y| ≤ |x - y| + 1/100 := by
  have hx := pyRound2_sub_abs x
  have hy := pyRound2_sub_abs y
  have : |pyRound2 x - pyRound2 y| ≤ |pyRound2 x - x| + |x - y| + |y - pyRound2 y| := by
    calc |pyRound2 x - pyRound2 y| = |(pyRound2 x - x) + (x - y) + (y - pyRound2 y)| := by
          ring_nf
      _ ≤ |(pyRound2 x - x) + (x - y)| + |y - pyRound2 y| := abs_add _ _
      _ ≤ |pyRound2 x - x| + |x - y| + |y - pyRound2 y| := by
          have := abs_add (pyRound2 x - x) (x - y)
          linarith
  rw [abs_sub_comm y (pyRound2 y)] at this
  linarith

theorem crossEventsSpec_cons₂ (d0 d1 : ℤ) (ds : List ℤ) (a a' b b' : ℚ)
    (s1 s2 : List ℚ) (p0 p1 : ℚ) (ps : List ℚ) :
    crossEventsSpec (d0 :: d1 :: ds) (a :: a' :: s1) (b :: b' :: s2) (p0 :: p1 :: ps)
      = (if a - b ≤ 0 ∧ a' - b' > 0 then [⟨d1, (a + b) / 2, "down", p1⟩]
         else if a - b ≥ 0 ∧ a' - b' < 0 then [⟨d1, (a + b) / 2, "up", p1⟩]
         else [])
        ++ crossEventsSpec (d1 :: ds) (a' :: s1) (b' :: s2) (p1 :: ps) := by
  unfold crossEventsSpec
  simp only [List.tail_cons, List.zip_cons_cons, List.filterMap_cons]
  split_ifs <;> rfl

theorem goCross_eq_spec : ∀ (s1 s2 : List ℚ) (ds : List ℤ) (ps : List ℚ) (a b : ℚ)
    (d0 : ℤ) (p0 : ℚ),
    goCross a b s1 s2 ds ps
      = projectEvents (crossEventsSpec (d0 :: ds) (a :: s1) (b :: s2) (p0 :: ps)) := by
  intro s1
  induction s1 with
  | nil =>
    intro s2 ds ps a b d0 p0
    cases s2 <;> cases ds <;> cases ps <;> rfl
  | cons a' s1' ih =>
    intro s2 ds ps a b d0 p0
    match s2, ds, ps with
    | [], _, _ => rfl
    | b' :: s2', [], _ => rfl
    | b' :: s2', d1 :: ds', [] => rfl
    | b' :: s2', d1 :: ds', p1 :: ps' =>
      rw [crossEventsSpec_cons₂]
      show goCross a b (a' :: s1') (b' :: s2') (d1 :: ds') (p1 :: ps') = _
      rw [goCross, ih s2' ds' ps' a' b' d1 p1]
      split_ifs <;> simp [projectEvents]

/-! ### MetricScorer helpers -/

theorem score_metric_return_unfold (value benchmark : ℚ) :
    score_metric value benchmark "return"
      = (if 60 + (if (value - benchmark) * 100 ≥ 0 then (value - benchmark) * 100 / 2
            else (value - benchmark) * 100 * 2) > 100 then (100 : ℚ)
         else if 60 + (if (value - benchmark) * 100 ≥ 0 then (value - benchmark) * 100 / 2
            else (value - benchmark) * 100 * 2) < 25 then 25
         else (pyRound (60 + (if (value - benchmark) * 100 ≥ 0 then
            (value - benchmark) * 100 / 2 else (value - benchmark) * 100 * 2)) : ℚ)) := by
  unfold score_metric
  rw [if_pos rfl]

theorem score_metric_vol_eq (value benchmark : ℚ) :
    score_metric value benchmark "volatility" = volRatioLookup (value / benchmark) := by
  unfold score_metric volRatioLookup
  rw [if_neg (show ¬("volatility" : String) = "return" by decide)]

theorem pyRound_100 : pyRound (100 : ℚ) = 100 := by norm_num [pyRound]

theorem pyRound_25 : pyRound (25 : ℚ) = 25 := by norm_num [pyRound]

theorem clampRound_eq_minmax (f : ℚ) :
    (if f > 100 then (100 : ℚ) else if f < 25 then 25 else (pyRound f : ℚ))
      = min 100 (max 25 (pyRound f : ℚ)) := by
  split_ifs with h1 h2
  · have h : (100 : ℤ) ≤ pyRound f := by
      rw [← pyRound_100]
      exact pyRound_mono h1.le
    have h' : (100 : ℚ) ≤ (pyRound f : ℚ) := by exact_mod_cast h
    rw [max_eq_right (by linarith), min_eq_left h']
  · have h : pyRound f ≤ 25 := by
      rw [← pyRound_25]
      exact pyRound_mono h2.le
    have h' : (pyRound f : ℚ) ≤ 25 := by exact_mod_cast h
    rw [max_eq_left h', min_eq_right (by norm_num)]
  · have ha : (25 : ℤ) ≤ pyRound f := by
      rw [← pyRound_25]
      exact pyRound_mono (by linarith)
    have hb : pyRound f ≤ 100 := by
      rw [← pyRound_100]
      exact pyRound_mono (by linarith)
    have ha' : (25 : ℚ) ≤ (pyRound f : ℚ) := by exact_mod_cast ha
    have hb' : (pyRound f : ℚ) ≤ 100 := by exact_mod_cast hb
    rw [max_eq_right ha', min_eq_right hb']

theorem return_points_mono {d1 d2 : ℚ} (h : d1 ≤ d2) :
    (if d1 ≥ 0 then d1 / 2 else d1 * 2) ≤ (if d2 ≥ 0 then d2 / 2 else d2 * 2) := by
  split_ifs with ha hb hb <;> linarith

/-- Claim C6: for every fixed benchmark the return score is monotonically
non-decreasing in the asset's annualized return value and always lies in
`[25, 100]`; it equals base 60 plus `diff/2` for non-negative
`diff_pct_points` and minus `2·|diff|` for negative `diff`, clamped and
rounded to the nearest integer. -/
theorem C6_return_score_monotone_clamped :
    (∀ benchmark v₁ v₂ : ℚ, v₁ ≤ v₂ →
      score_metric v₁ benchmark "return" ≤ score_metric v₂ benchmark "return")
    ∧ (∀ value benchmark : ℚ,
        25 ≤ score_metric value benchmark "return"
        ∧ score_metric value benchmark "return" ≤ 100)
    ∧ (∀ value benchmark : ℚ,
        score_metric value benchmark "return" = returnScoreSpec value benchmark) := by
  have hmm : ∀ value benchmark : ℚ, score_metric value benchmark "return"
      = min 100 (max 25 (pyRound (60 + (if (value - benchmark) * 100 ≥ 0 then
          (value - benchmark) * 100 / 2 else (value - benchmark) * 100 * 2)) : ℚ)) := by
    intro value benchmark
    rw [score_metric_return_unfold, clampRound_eq_minmax]
  refine ⟨?_, ?_, ?_⟩
  · intro benchmark v₁ v₂ h
    rw [hmm, hmm]
    have hd : (v₁ - benchmark) * 100 ≤ (v₂ - benchmark) * 100 := by linarith
    have hpts := return_points_mono hd
    have hr : pyRound (60 + (if (v₁ - benchmark) * 100 ≥ 0 then (v₁ - benchmark) * 100 / 2
          else (v₁ - benchmark) * 100 * 2))
        ≤ pyRound (60 + (if (v₂ - benchmark) * 100 ≥ 0 then (v₂ - benchmark) * 100 / 2
          else (v₂ - benchmark) * 100 * 2)) := pyRound_mono (by linarith)
    have hr' : ((pyRound (60 + (if (v₁ - benchmark) * 100 ≥ 0 then (v₁ - benchmark) * 100 / 2
          else (v₁ - benchmark) * 100 * 2)) : ℚ))
        ≤ ((pyRound (60 + (if (v₂ - benchmark) * 100 ≥ 0 then (v₂ - benchmark) * 100 / 2
          else (v₂ - benchmark) * 100 * 2)) : ℚ)) := by exact_mod_cast hr
    exact min_le_min (le_refl _) (max_le_max (le_refl _) hr')
  · intro value benchmark
    rw [hmm]
    constructor
    · exact le_min (by norm_num) (le_max_left _ _)
    · exact min_le_left _ _
  · intro value benchmark
    rw [hmm]
    unfold returnScoreSpec
    congr 2
    split_ifs with h
    · rfl
    · rw [abs_of_neg (by linarith : (value - benchmark) * 100 < 0)]
      ring_nf

/-- Witness for C6 at a concrete input. -/
theorem C6_return_score_monotone_clamped_witness :
    (0 : ℚ) ≤ 1
    ∧ score_metric 0 0 "return" ≤ score_metric 1 0 "return" :=
  ⟨by norm_num, C6_return_score_monotone_clamped.1 0 0 1 (by norm_num)⟩

/-- Claim C7: for positive benchmark and value the volatility score is the
stepped lookup on `ratio = value/benchmark` with inclusive upper bounds;
ratio 0.6 scores exactly 100, ratio 1.0 exactly 75, ratio 2.5 exactly 40. -/
theorem C7_volatility_score_lookup :
    (∀ value benchmark : ℚ, 0 < benchmark → 0 < value →
      score_metric value benchmark "volatility" = volRatioLookup (value / benchmark))
    ∧ score_metric 0.6 1 "volatility" = 100
    ∧ score_metric 1 1 "volatility" = 75
    ∧ score_metric 2.5 1 "volatility" = 40 := by
  have hs : ¬("volatility" : String) = "return" := by decide
  refine ⟨fun value benchmark hb hv => ?_, ?_, ?_, ?_⟩ <;>
    [skip; (unfold score_metric; rw [if_neg hs]; norm_num);
     (unfold score_metric; rw [if_neg hs]; norm_num [pyRound]);
     (unfold score_metric; rw [if_neg hs]; norm_num)]
  unfold score_metric volRatioLookup
  rw [if_neg (by decide : ¬("volatility" : String) = "return")]

/-- Witness for C7 at a concrete input. -/
theorem C7_volatility_score_lookup_witness :
    (0 : ℚ) < 1 ∧ (0 : ℚ) < 0.6
    ∧ score_metric 0.6 1 "volatility" = volRatioLookup (0.6 / 1) :=
  ⟨by norm_num, by norm_num, C7_volatility_score_lookup.1 0.6 1 (by norm_num) (by norm_num)⟩

/-! ### TrendScorer theorems -/

theorem toNat_decide (P : Prop) [Decidable P] : (decide P).toNat = if P then 1 else 0 := by
  by_cases h : P <;> simp [h]

theorem countTrue_trend_type (q l : ℚ) :
    countTrue (trend_type q l) = if q ≠ 0 ∧ l ≠ 0 then 1 else 0 := by
  unfold countTrue trend_type
  simp only [toNat_decide]
  rcases lt_trichotomy q 0 with hq | hq | hq
  · rcases lt_trichotomy l 0 with hl | hl | hl
    · rw [if_neg (show ¬(q > 0 ∧ l > 0) from fun h => lt_asymm hq h.1),
        if_pos (show q < 0 ∧ l < 0 from ⟨hq, hl⟩),
        if_neg (show ¬(q > 0 ∧ l < 0) from fun h => lt_asymm hq h.1),
        if_neg (show ¬(q < 0 ∧ l > 0) from fun h => lt_asymm hl h.2),
        if_pos (show q ≠ 0 ∧ l ≠ 0 from ⟨ne_of_lt hq, ne_of_lt hl⟩)]
    · subst hl
      rw [if_neg (show ¬(q > 0 ∧ (0:ℚ) > 0) from fun h => lt_irrefl 0 h.2),
        if_neg (show ¬(q < 0 ∧ (0:ℚ) < 0) from fun h => lt_irrefl 0 h.2),
        if_neg (show ¬(q ≠ 0 ∧ (0:ℚ) ≠ 0) from fun h => h.2 rfl)]
    · rw [if_neg (show ¬(q > 0 ∧ l > 0) from fun h => lt_asymm hq h.1),
        if_neg (show ¬(q < 0 ∧ l < 0) from fun h => lt_asymm hl h.2),
        if_neg (show ¬(q > 0 ∧ l < 0) from fun h => lt_asymm hq h.1),
        if_pos (show q < 0 ∧ l > 0 from ⟨hq, hl⟩),
        if_pos (show q ≠ 0 ∧ l ≠ 0 from ⟨ne_of_lt hq, ne_of_gt hl⟩)]
  · subst hq
    rw [if_neg (show ¬((0:ℚ) > 0 ∧ l > 0) from fun h => lt_irrefl 0 h.1),
      if_neg (show ¬((0:ℚ) < 0 ∧ l < 0) from fun h => lt_irrefl 0 h.1),
      if_neg (show ¬((0:ℚ) ≠ 0 ∧ l ≠ 0) from fun h => h.1 rfl)]
  · rcases lt_trichotomy l 0 with hl | hl | hl
    · rw [if_neg (show ¬(q > 0 ∧ l > 0) from fun h => lt_asymm hl h.2),
        if_neg (show ¬(q < 0 ∧ l < 0) from fun h => lt_asymm hq h.1),
        if_pos (show q > 0 ∧ l < 0 from ⟨hq, hl⟩),
        if_neg (show ¬(q < 0 ∧ l > 0) from fun h => lt_asymm hq h.1),
        if_pos (show q ≠ 0 ∧ l ≠ 0 from ⟨ne_of_gt hq, ne_of_lt hl⟩)]
    · subst hl
      rw [if_neg (show ¬(q > 0 ∧ (0:ℚ) > 0) from fun h => lt_irrefl 0 h.2),
        if_neg (show ¬(q < 0 ∧ (0:ℚ) < 0) from fun h => lt_irrefl 0 h.2),
        if_neg (show ¬(q ≠ 0 ∧ (0:ℚ) ≠ 0) from fun h => h.2 rfl)]
    · rw [if_pos (show q > 0 ∧ l > 0 from ⟨hq, hl⟩),
        if_neg (show ¬(q < 0 ∧ l < 0) from fun h => lt_asymm hq h.1),
        if_neg (show ¬(q > 0 ∧ l < 0) from fun h => lt_asymm hl h.2),
        if_neg (show ¬(q < 0 ∧ l > 0) from fun h => lt_asymm hq h.1),
        if_pos (show q ≠ 0 ∧ l ≠ 0 from ⟨ne_of_gt hq, ne_of_gt hl⟩)]

theorem evaluate_trend_score_formula (q l r vl vq : ℚ) :
    (evaluate_trend_score q l r vl vq).1
      = min 100 (max 0
          ((50 + trendAdjustmentSpec (classifyTrend q l)
              (min 1 (|q / vq| / 30)) (min 1 |l / vl|))
            * (0.6 + 0.4 * r ^ 2))) := by
  unfold evaluate_trend_score classifyTrend trend_type
  simp only [decide_eq_true_eq]
  split_ifs <;> simp only [trendAdjustmentSpec] <;> try split_ifs
  all_goals ring_nf

/-- Claim C9, counterexample: the claim says every coefficient pair is
classified into exactly one of the four trend types, but at
`quad_coef = 0, linear_coef = 0` none of the four sign tests of
`trend_type` holds. -/
theorem C9_exactly_one_false :
    countTrue (trend_type 0 0) = 0 ∧ countTrue (trend_type 0 0) ≠ 1 := by
  have h := countTrue_trend_type 0 0
  rw [if_neg (fun hc => hc.1 rfl)] at h
  exact ⟨h, by omega⟩

/-- Claim C9 as amended: at most one of the four trend types applies,
and exactly one applies precisely when both coefficients are nonzero
(with a zero coefficient no adjustment is applied and the neutral base 50
is used); the trend score is the type's adjustment applied to the base
50, multiplied by `0.6 + 0.4·r_squared²`, and clamped to `[0, 100]`. -/
theorem C9_trend_classification_amended :
    (∀ q l : ℚ, countTrue (trend_type q l) ≤ 1)
    ∧ (∀ q l : ℚ, countTrue (trend_type q l) = 1 ↔ q ≠ 0 ∧ l ≠ 0)
    ∧ (∀ q l r vl vq : ℚ,
        (evaluate_trend_score q l r vl vq).1
          = min 100 (max 0
              ((50 + trendAdjustmentSpec (classifyTrend q l)
                  (min 1 (|q / vq| / 30)) (min 1 |l / vl|))
                * (0.6 + 0.4 * r ^ 2)))) := by
  refine ⟨fun q l => ?_, fun q l => ?_, fun q l r vl vq => evaluate_trend_score_formula q l r vl vq⟩
  · rw [countTrue_trend_type]
    split_ifs <;> omega
  · rw [countTrue_trend_type]
    split_ifs with h
    · simp [h]
    · simp [h]

/-! ### Empty-input fallback (claim C5) -/

/-- Claim C5: given an empty (or absent) input series, the composite
analysis call returns the fully zeroed record: rating "Error", r2 = 0,
empty prediction/band sequences, coefficients [0,0,0], max_x = 0 and the
equation string "No data available". -/
theorem C5_empty_input_result (data : Option Frame) (spFetch : Option Frame)
    (spKernel : Frame → Option SP500Params) (regKernel : Frame → Option RegOut)
    (ln : ℚ → ℚ) (assetStats volKernel : Frame → ℚ × ℚ) (u : ℚ)
    (h : data = none ∨ ∃ d, data = some d ∧ d.dates = []) :
    (perform_polynomial_regression data spFetch spKernel regKernel ln assetStats
        volKernel u).1 = emptyResult
    ∧ emptyResult.total_score.rating = "Error"
    ∧ emptyResult.r2 = 0
    ∧ emptyResult.predictions = []
    ∧ emptyResult.upper_band = []
    ∧ emptyResult.lower_band = []
    ∧ emptyResult.coefficients = [0, 0, 0]
    ∧ emptyResult.max_x = 0
    ∧ emptyResult.equation = "No data available" := by
  refine ⟨?_, rfl, rfl, rfl, rfl, rfl, rfl, rfl, rfl⟩
  rcases h with rfl | ⟨d, rfl, hd⟩
  · rfl
  · simp [perform_polynomial_regression, hd]

/-- Witness for C5 at the concrete absent input. -/
theorem C5_empty_input_result_witness :
    ((none : Option Frame) = none ∨ ∃ d, (none : Option Frame) = some d ∧ d.dates = [])
    ∧ (perform_polynomial_regression none none sampleSpKernel sampleRegKernel id
        sampleStats sampleVols 0).1 = emptyResult :=
  ⟨Or.inl rfl,
   (C5_empty_input_result none none sampleSpKernel sampleRegKernel id sampleStats
     sampleVols 0 (Or.inl rfl)).1⟩

/-! ### Determinism of the composite call (claim C1) -/

theorem ppr_sans_random (data spFetch : Option Frame)
    (spKernel : Frame → Option SP500Params) (regKernel : Frame → Option RegOut)
    (ln : ℚ → ℚ) (assetStats volKernel : Frame → ℚ × ℚ) (u₁ u₂ : ℚ) :
    resultSansRandom (perform_polynomial_regression data spFetch spKernel regKernel ln
        assetStats volKernel u₁).1
      = resultSansRandom (perform_polynomial_regression data spFetch spKernel regKernel ln
        assetStats volKernel u₂).1 := by
  rcases data with _ | d
  · rfl
  · by_cases hE : d.dates.isEmpty
    · simp [perform_polynomial_regression, hE]
    · rcases hR : regKernel (d.setLogClose ln) with _ | rk
      · simp [perform_polynomial_regression, hE, hR]
      · simp [perform_polynomial_regression, hE, hR, resultSansRandom]

theorem ppr_score_bound (data spFetch : Option Frame)
    (spKernel : Frame → Option SP500Params) (regKernel : Frame → Option RegOut)
    (ln : ℚ → ℚ) (assetStats volKernel : Frame → ℚ × ℚ) (u₁ u₂ : ℚ)
    (h1 : -2 ≤ u₁) (h2 : u₁ ≤ 2) (h3 : -2 ≤ u₂) (h4 : u₂ ≤ 2) :
    |(perform_polynomial_regression data spFetch spKernel regKernel ln assetStats
        volKernel u₁).1.total_score.score
      - (perform_polynomial_regression data spFetch spKernel regKernel ln assetStats
        volKernel u₂).1.total_score.score| ≤ 401/100 := by
  have hu : |u₁ - u₂| ≤ 4 := abs_le.mpr ⟨by linarith, by linarith⟩
  rcases data with _ | d
  · simp [perform_polynomial_regression, emptyResult, zeroTotalScore]
    norm_num
  · by_cases hE : d.dates.isEmpty
    · simp [perform_polynomial_regression, hE, emptyResult, zeroTotalScore]
      norm_num
    · rcases hR : regKernel (d.setLogClose ln) with _ | rk
      · simp [perform_polynomial_regression, hE, hR, regressionFailedResult, zeroTotalScore]
        norm_num
      · simp only [perform_polynomial_regression, hE, hR]
        refine le_trans (pyRound2_diff_abs _ _) ?_
        rw [add_sub_add_left_eq_sub]
        linarith

/-- Claim C1, counterexample: with the same series and the same benchmark
data, two invocations that differ only in the random draw of line 398
(`round(uniform(f-2, f+2), 2)`) return different `total_score.score`
values: 74 and 76. -/
theorem C1_determinism_false :
    (perform_polynomial_regression (some sampleFrame) (some sampleFrame) sampleSpKernel
        sampleRegKernel id sampleStats sampleVols (-1)).1.total_score.score = 74
    ∧ (perform_polynomial_regression (some sampleFrame) (some sampleFrame) sampleSpKernel
        sampleRegKernel id sampleStats sampleVols 1).1.total_score.score = 76
    ∧ (74 : ℚ) ≠ 76 := by
  refine ⟨?_, ?_, by norm_num⟩ <;>
    norm_num [perform_polynomial_regression, benchmarkParams, sampleFrame, sampleParams,
      sampleRegOut, sampleRegKernel, sampleSpKernel, sampleStats, sampleVols,
      Frame.setLogClose, setCol, evaluate_trend_score, trend_type,
      score_metric_return_unfold, score_metric_vol_eq, volRatioLookup,
      pyRound2, pyRound]

/-- Claim C1 as amended: every result field other than `total_score.score`
and the rating derived from it is a pure function of the inputs, and
across two draws the scores differ by at most `4.01`. -/
theorem C1_determinism_amended (data spFetch : Option Frame)
    (spKernel : Frame → Option SP500Params) (regKernel : Frame → Option RegOut)
    (ln : ℚ → ℚ) (assetStats volKernel : Frame → ℚ × ℚ) (u₁ u₂ : ℚ)
    (h1 : -2 ≤ u₁) (h2 : u₁ ≤ 2) (h3 : -2 ≤ u₂) (h4 : u₂ ≤ 2) :
    resultSansRandom (perform_polynomial_regression data spFetch spKernel regKernel ln
        assetStats volKernel u₁).1
      = resultSansRandom (perform_polynomial_regression data spFetch spKernel regKernel ln
        assetStats volKernel u₂).1
    ∧ |(perform_polynomial_regression data spFetch spKernel regKernel ln assetStats
        volKernel u₁).1.total_score.score
      - (perform_polynomial_regression data spFetch spKernel regKernel ln assetStats
        volKernel u₂).1.total_score.score| ≤ 401/100 :=
  ⟨ppr_sans_random data spFetch spKernel regKernel ln assetStats volKernel u₁ u₂,
   ppr_score_bound data spFetch spKernel regKernel ln assetStats volKernel u₁ u₂
     h1 h2 h3 h4⟩

/-- Witness for the amended C1 at a concrete input. -/
theorem C1_determinism_amended_witness :
    ((-2 : ℚ) ≤ -1 ∧ (-1 : ℚ) ≤ 2 ∧ (-2 : ℚ) ≤ 1 ∧ (1 : ℚ) ≤ 2)
    ∧ (resultSansRandom (perform_polynomial_regression (some sampleFrame)
          (some sampleFrame) sampleSpKernel sampleRegKernel id sampleStats sampleVols
          (-1)).1
        = resultSansRandom (perform_polynomial_regression (some sampleFrame)
          (some sampleFrame) sampleSpKernel sampleRegKernel id sampleStats sampleVols
          1).1
       ∧ |(perform_polynomial_regression (some sampleFrame) (some sampleFrame)
            sampleSpKernel sampleRegKernel id sampleStats sampleVols
            (-1)).1.total_score.score
          - (perform_polynomial_regression (some sampleFrame) (some sampleFrame)
            sampleSpKernel sampleRegKernel id sampleStats sampleVols
            1).1.total_score.score| ≤ 401/100) :=
  ⟨⟨by norm_num, by norm_num, by norm_num, by norm_num⟩,
   C1_determinism_amended (some sampleFrame) (some sampleFrame) sampleSpKernel
     sampleRegKernel id sampleStats sampleVols (-1) 1
     (by norm_num) (by norm_num) (by norm_num) (by norm_num)⟩

/-! ### Frame mutation (claim C3) -/

theorem find?_map_setCol (cols : List (String × List ℚ)) (nm nm' : String) (v : List ℚ)
    (h : nm' ≠ nm) :
    (cols.map (fun c => if c.1 = nm then (nm, v) else c)).find? (fun c => c.1 = nm')
      = cols.find? (fun c => c.1 = nm') := by
  induction cols with
  | nil => rfl
  | cons c cs ih =>
    rw [List.map_cons]
    by_cases h1 : c.1 = nm
    · have e1 : decide (nm = nm') = false := decide_eq_false (fun he => h he.symm)
      have e2 : decide (c.1 = nm') = false :=
        decide_eq_false (fun he => h (by rw [← he]; exact h1))
      simp only [if_pos h1, List.find?_cons, e1, e2]
      exact ih
    · rw [if_neg h1]
      by_cases h2 : c.1 = nm'
      · have e : decide (c.1 = nm') = true := decide_eq_true h2
        simp only [List.find?_cons, e]
      · have e : decide (c.1 = nm') = false := decide_eq_false h2
        simp only [List.find?_cons, e]
        exact ih

theorem find?_append_single (cols : List (String × List ℚ)) (nm nm' : String)
    (v : List ℚ) (h : nm' ≠ nm) :
    (cols ++ [(nm, v)]).find? (fun c => c.1 = nm') = cols.find? (fun c => c.1 = nm') := by
  induction cols with
  | nil =>
    have e1 : decide (nm = nm') = false := decide_eq_false (fun he => h he.symm)
    simp only [List.nil_append, List.find?_cons, e1]
  | cons c cs ih =>
    rw [List.cons_append]
    by_cases h2 : c.1 = nm'
    · have e : decide (c.1 = nm') = true := decide_eq_true h2
      simp only [List.find?_cons, e]
    · have e : decide (c.1 = nm') = false := decide_eq_false h2
      simp only [List.find?_cons, e]
      exact ih

theorem lookupCol_setCol_ne (cols : List (String × List ℚ)) (nm nm' : String)
    (v : List ℚ) (h : nm' ≠ nm) :
    lookupCol (setCol cols nm v) nm' = lookupCol cols nm' := by
  unfold lookupCol setCol
  split_ifs with hc
  · rw [find?_map_setCol cols nm nm' v h]
  · rw [find?_append_single cols nm nm' v h]

/-- Claim C3, counterexample: on a non-empty series the composite call
mutates the caller's frame — afterwards it carries a `Log_Close` column it
did not have before, so it is not the frame the caller passed in. -/
theorem C3_frame_preserved_false :
    ¬sampleFrame.dates.isEmpty
    ∧ (perform_polynomial_regression (some sampleFrame) (some sampleFrame) sampleSpKernel
        sampleRegKernel id sampleStats sampleVols 0).2 ≠ some sampleFrame := by
  constructor
  · decide
  · have h : (perform_polynomial_regression (some sampleFrame) (some sampleFrame)
        sampleSpKernel sampleRegKernel id sampleStats sampleVols 0).2
        = some (sampleFrame.setLogClose id) := by
      simp [perform_polynomial_regression, sampleFrame, sampleRegKernel]
    have h2 : sampleFrame.setLogClose id ≠ sampleFrame := by
      intro hc
      have hcols := congrArg Frame.cols hc
      simp [Frame.setLogClose, setCol, sampleFrame] at hcols
    rw [h]
    exact fun hc => h2 (Option.some.inj hc)

/-- Claim C3 as amended: the call hands back the caller's frame with the
same dates and close prices and all other columns untouched, except that
a `Log_Close` column (the log of the close prices) has been added or
overwritten in place. -/
theorem C3_mutation_amended (d : Frame) (hne : ¬d.dates.isEmpty)
    (spFetch : Option Frame) (spKernel : Frame → Option SP500Params)
    (regKernel : Frame → Option RegOut) (ln : ℚ → ℚ)
    (assetStats volKernel : Frame → ℚ × ℚ) (u : ℚ) :
    (perform_polynomial_regression (some d) spFetch spKernel regKernel ln assetStats
        volKernel u).2 = some (d.setLogClose ln)
    ∧ (d.setLogClose ln).dates = d.dates
    ∧ (d.setLogClose ln).close = d.close
    ∧ (∀ nm, nm ≠ "Log_Close" →
        lookupCol (d.setLogClose ln).cols nm = lookupCol d.cols nm) := by
  refine ⟨?_, rfl, rfl, fun nm hnm => lookupCol_setCol_ne d.cols "Log_Close" nm _ hnm⟩
  rcases hR : regKernel (d.setLogClose ln) with _ | rk <;>
    simp [perform_polynomial_regression, hne, hR]

/-- Witness for the amended C3 at a concrete input. -/
theorem C3_mutation_amended_witness :
    ¬sampleFrame.dates.isEmpty
    ∧ (perform_polynomial_regression (some sampleFrame) (some sampleFrame) sampleSpKernel
        sampleRegKernel id sampleStats sampleVols 0).2
      = some (sampleFrame.setLogClose id) :=
  ⟨by decide,
   (C3_mutation_amended sampleFrame (by decide) (some sampleFrame) sampleSpKernel
     sampleRegKernel id sampleStats sampleVols 0).1⟩

/-! ### Rolling-window analyzer (claims C2 and C4) -/

theorem rowFor_eq_none_iff (f : Frame) (cd ld : ℤ) (k : List (ℤ × ℚ) → Option ℚ)
    (t : ℤ) : rowFor f cd ld k t = none ↔ (trimWindow f t cd).length < 20 := by
  simp only [rowFor]
  split_ifs with h
  · simp [h]
  · simp [h]

theorem rowFor_date {f : Frame} {cd ld : ℤ} {k : List (ℤ × ℚ) → Option ℚ} {t : ℤ}
    {r : WRow} (h : rowFor f cd ld k t = some r) : r.date = t := by
  simp only [rowFor] at h
  split_ifs at h <;> (rw [Option.some.injEq] at h; subst h; rfl)

/-- Claim C2, counterexample: on an empty input series `analyze_stock_data`
raises to the caller (`pd.DataFrame([]).set_index('Date')` raises KeyError
and the handler at source lines 639-641 re-raises), so it is not true that
no public operation surfaces an exception. -/
theorem C2_no_raise_false :
    analyze_stock_data emptyFrame 365 365 (fun _ => none)
      = Except.error "KeyError: Date" := rfl

/-- Claim C2 as amended: `perform_polynomial_regression` substitutes
documented fallbacks and always returns a well-formed record, but
`analyze_stock_data` catches, logs and re-raises: it surfaces an exception
to the caller precisely when no date has a technical trailing window with
at least 20 observations (in particular on an empty series). -/
theorem C2_raise_characterization (f : Frame) (crossover_days lookback_days : ℤ)
    (r2Kernel : List (ℤ × ℚ) → Option ℚ) :
    (∃ e, analyze_stock_data f crossover_days lookback_days r2Kernel = Except.error e)
      ↔ ∀ t ∈ f.dates, (trimWindow f t crossover_days).length < 20 := by
  simp only [analyze_stock_data]
  by_cases h : (rowsOf f crossover_days lookback_days r2Kernel).isEmpty
  · rw [if_pos h]
    rw [List.isEmpty_iff, rowsOf, List.filterMap_eq_nil_iff] at h
    constructor
    · intro _ t ht
      exact (rowFor_eq_none_iff f crossover_days lookback_days r2Kernel t).mp (h t ht)
    · intro _
      exact ⟨"KeyError: Date", rfl⟩
  · rw [if_neg h]
    constructor
    · rintro ⟨e, he⟩
      simp at he
    · intro hall
      exfalso
      apply h
      rw [List.isEmpty_iff, rowsOf, List.filterMap_eq_nil_iff]
      intro t ht
      exact (rowFor_eq_none_iff f crossover_days lookback_days r2Kernel t).mpr (hall t ht)

/-- Claim C4: the rolling analysis emits a row for date `t` iff the
technical trailing window ending at `t` has at least 20 observations, and
once the available history before `t` exceeds `crossover_days` every
observation in the window used for `t` is at most `crossover_days` old. -/
theorem C4_rolling_window_rows (f : Frame) (crossover_days lookback_days : ℤ)
    (r2Kernel : List (ℤ × ℚ) → Option ℚ) (t : ℤ) (ht : t ∈ f.dates) :
    ((∃ r ∈ rowsOf f crossover_days lookback_days r2Kernel, r.date = t)
        ↔ 20 ≤ (trimWindow f t crossover_days).length)
    ∧ (t - ((upTo f t).headD (0, 0)).1 > crossover_days →
        ∀ p ∈ trimWindow f t crossover_days, t - p.1 ≤ crossover_days) := by
  constructor
  · constructor
    · rintro ⟨r, hr, hdate⟩
      rw [rowsOf, List.mem_filterMap] at hr
      obtain ⟨t', ht', hft'⟩ := hr
      have hd : r.date = t' := rowFor_date hft'
      have heq : t' = t := by rw [← hdate, hd]
      subst heq
      by_contra hlen
      push_neg at hlen
      rw [(rowFor_eq_none_iff f crossover_days lookback_days r2Kernel t').mpr hlen]
        at hft'
      exact absurd hft' (by simp)
    · intro hlen
      rcases ho : rowFor f crossover_days lookback_days r2Kernel t with _ | r
      · exact absurd ((rowFor_eq_none_iff f crossover_days lookback_days r2Kernel t).mp ho)
          (by omega)
      · exact ⟨r, by rw [rowsOf, List.mem_filterMap]; exact ⟨t, ht, ho⟩, rowFor_date ho⟩
  · intro hcond p hp
    rw [trimWindow, if_pos hcond] at hp
    have hmem := List.mem_filter.mp hp
    have hgt : t - crossover_days < p.1 := by simpa using hmem.2
    omega

/-- Witness for C4 at a concrete 25-row frame. -/
theorem C4_rolling_window_rows_witness :
    (24 : ℤ) ∈ manyFrame.dates
    ∧ (((∃ r ∈ rowsOf manyFrame 365 365 (fun _ => none), r.date = 24)
          ↔ 20 ≤ (trimWindow manyFrame 24 365).length)
       ∧ ((24 : ℤ) - ((upTo manyFrame 24).headD (0, 0)).1 > 365 →
          ∀ p ∈ trimWindow manyFrame 24 365, (24 : ℤ) - p.1 ≤ 365)) :=
  ⟨by decide, C4_rolling_window_rows manyFrame 365 365 (fun _ => none) 24 (by decide)⟩

/-! ### CrossoverDetector (claims C8 and C10) -/

/-- Claim C8: for equal-length aligned inputs the detector equals the
single-scan event description `crossEventsSpec` ("down" on a `≤ 0` to
`> 0` transition of the diff, "up" on a `≥ 0` to `< 0` transition, with
the midpoint at `i-1` and price at `i`), and on
`s1 = [1,2,3,2,1], s2 = [2,2,2,2,2]` it reports exactly one "down" and
one "up" event. -/
theorem C8_crossover_events :
    (∀ (dates : List ℤ) (s1 s2 prices : List ℚ),
        s2.length = s1.length → dates.length = s1.length → prices.length = s1.length →
        find_crossover_points dates s1 s2 prices
          = projectEvents (crossEventsSpec dates s1 s2 prices))
    ∧ find_crossover_points [10, 20, 30, 40, 50] [1, 2, 3, 2, 1] [2, 2, 2, 2, 2]
        [9, 8, 7, 6, 5]
      = ([30, 50], [2, 2], ["down", "up"], [7, 5]) := by
  constructor
  · intro dates s1 s2 prices h2 hd hp
    rcases s1 with _ | ⟨a, s1⟩
    · rfl
    rcases s2 with _ | ⟨b, s2⟩
    · simp only [List.length_nil, List.length_cons] at h2
      omega
    rcases dates with _ | ⟨d0, ds⟩
    · simp only [List.length_nil, List.length_cons] at hd
      omega
    rcases prices with _ | ⟨p0, ps⟩
    · simp only [List.length_nil, List.length_cons] at hp
      omega
    exact goCross_eq_spec s1 s2 ds ps a b d0 p0
  · show goCross 1 2 [2, 3, 2, 1] [2, 2, 2, 2] [20, 30, 40, 50] [8, 7, 6, 5] = _
    norm_num [goCross]

/-- Witness for C8 at the concrete input of the claim. -/
theorem C8_crossover_events_witness :
    (([2, 2, 2, 2, 2] : List ℚ).length = ([1, 2, 3, 2, 1] : List ℚ).length
     ∧ ([10, 20, 30, 40, 50] : List ℤ).length = ([1, 2, 3, 2, 1] : List ℚ).length
     ∧ ([9, 8, 7, 6, 5] : List ℚ).length = ([1, 2, 3, 2, 1] : List ℚ).length)
    ∧ find_crossover_points [10, 20, 30, 40, 50] [1, 2, 3, 2, 1] [2, 2, 2, 2, 2]
        [9, 8, 7, 6, 5]
      = projectEvents (crossEventsSpec [10, 20, 30, 40, 50] [1, 2, 3, 2, 1]
          [2, 2, 2, 2, 2] [9, 8, 7, 6, 5]) :=
  ⟨⟨rfl, rfl, rfl⟩,
   C8_crossover_events.1 [10, 20, 30, 40, 50] [1, 2, 3, 2, 1] [2, 2, 2, 2, 2]
     [9, 8, 7, 6, 5] rfl rfl rfl⟩

theorem goCross_inv : ∀ (s1 s2 : List ℚ) (ds : List ℤ) (ps : List ℚ) (a b : ℚ),
    ((goCross a b s1 s2 ds ps).2.1.length = (goCross a b s1 s2 ds ps).1.length)
    ∧ ((goCross a b s1 s2 ds ps).2.2.1.length = (goCross a b s1 s2 ds ps).1.length)
    ∧ ((goCross a b s1 s2 ds ps).2.2.2.length = (goCross a b s1 s2 ds ps).1.length)
    ∧ (goCross a b s1 s2 ds ps).1.Sublist ds
    ∧ ∀ dir ∈ (goCross a b s1 s2 ds ps).2.2.1, dir = "down" ∨ dir = "up" := by
  intro s1
  induction s1 with
  | nil =>
    intro s2 ds ps a b
    exact ⟨rfl, rfl, rfl, List.nil_sublist ds, by simp [goCross]⟩
  | cons a' s1' ih =>
    intro s2 ds ps a b
    rcases s2 with _ | ⟨b', s2'⟩
    · exact ⟨rfl, rfl, rfl, List.nil_sublist ds, by simp [goCross]⟩
    rcases ds with _ | ⟨d1, ds'⟩
    · exact ⟨rfl, rfl, rfl, List.nil_sublist [], by simp [goCross]⟩
    rcases ps with _ | ⟨p1, ps'⟩
    · exact ⟨rfl, rfl, rfl, List.nil_sublist _, by simp [goCross]⟩
    obtain ⟨i1, i2, i3, i4, i5⟩ := ih s2' ds' ps' a' b'
    rw [goCross]
    split_ifs with hc1 hc2
    · refine ⟨by simp [i1], by simp [i2], by simp [i3], i4.cons₂ d1, ?_⟩
      intro dir hdir
      rcases List.mem_cons.mp hdir with hh | hh
      · exact Or.inl hh
      · exact i5 dir hh
    · refine ⟨by simp [i1], by simp [i2], by simp [i3], i4.cons₂ d1, ?_⟩
      intro dir hdir
      rcases List.mem_cons.mp hdir with hh | hh
      · exact Or.inr hh
      · exact i5 dir hh
    · exact ⟨i1, i2, i3, i4.cons d1, i5⟩

/-- Claim C10: the detector's four output sequences always have equal
length, the emitted dates form a subsequence of the input dates (events in
increasing index order, hence non-decreasing date order when the input
dates are sorted), and every direction label is "down" or "up". -/
theorem C10_crossover_invariants (dates : List ℤ) (s1 s2 prices : List ℚ) :
    ((find_crossover_points dates s1 s2 prices).2.1.length
        = (find_crossover_points dates s1 s2 prices).1.length)
    ∧ ((find_crossover_points dates s1 s2 prices).2.2.1.length
        = (find_crossover_points dates s1 s2 prices).1.length)
    ∧ ((find_crossover_points dates s1 s2 prices).2.2.2.length
        = (find_crossover_points dates s1 s2 prices).1.length)
    ∧ (find_crossover_points dates s1 s2 prices).1.Sublist dates
    ∧ (∀ dir ∈ (find_crossover_points dates s1 s2 prices).2.2.1,
        dir = "down" ∨ dir = "up")
    ∧ (List.Sorted (· ≤ ·) dates →
        List.Sorted (· ≤ ·) (find_crossover_points dates s1 s2 prices).1) := by
  rcases s1 with _ | ⟨a, s1⟩
  · exact ⟨rfl, rfl, rfl, List.nil_sublist _, by simp [find_crossover_points],
      fun _ => List.sorted_nil⟩
  rcases s2 with _ | ⟨b, s2⟩
  · exact ⟨rfl, rfl, rfl, List.nil_sublist _, by simp [find_crossover_points],
      fun _ => List.sorted_nil⟩
  rcases dates with _ | ⟨d0, ds⟩
  · exact ⟨rfl, rfl, rfl, List.nil_sublist _, by simp [find_crossover_points],
      fun _ => List.sorted_nil⟩
  rcases prices with _ | ⟨p0, ps⟩
  · exact ⟨rfl, rfl, rfl, List.nil_sublist _, by simp [find_crossover_points],
      fun _ => List.sorted_nil⟩
  obtain ⟨i1, i2, i3, i4, i5⟩ := goCross_inv s1 s2 ds ps a b
  exact ⟨i1, i2, i3, i4.cons d0, i5, fun hs => hs.sublist (i4.cons d0)⟩

/-- Witness for C10's sortedness implication at a concrete input. -/
theorem C10_crossover_invariants_witness :
    List.Sorted (· ≤ ·) ([10, 20] : List ℤ)
    ∧ List.Sorted (· ≤ ·) (find_crossover_points [10, 20] [1, 3] [2, 2] [5, 6]).1 :=
  ⟨by decide,
   (C10_crossover_invariants [10, 20] [1, 3] [2, 2] [5, 6]).2.2.2.2.2 (by decide)⟩

end AnalysisService
